import Mathlib

/-!
Shallow embedding of the ProPyCore client library (companies, documents,
generic-tool accessors) and proofs about its pagination, lookup, filtering,
sparse-update and error-translation behaviour.

The remote HTTP API is modelled as an explicit function parameter (from a
request description to the parsed response body); each accessor method is
translated into a pure Lean function over that parameter, returning
`Except DomainError` where the Python code may raise a domain exception.
-/

namespace ProPyCore

/-- Model of a Python runtime value as it occurs in the fields and
identifiers consulted by this library: integers, strings and booleans. -/
inductive PyVal : Type
  | int : Int → PyVal
  | str : String → PyVal
  | bool : Bool → PyVal
deriving DecidableEq

/-- Python `isinstance(v, int)`: `bool` is a subclass of `int`, so boolean
values also satisfy the integer instance test. -/
def pyIsInstInt : PyVal → Bool
  | .int _ => true
  | .bool _ => true
  | .str _ => false

/-- Python `==` on the modelled values: `True == 1` and `False == 0` hold,
values of unrelated types compare unequal (no exception). -/
def pyEq : PyVal → PyVal → Bool
  | .int a, .int b => a == b
  | .int a, .bool b => a == (if b then (1 : Int) else 0)
  | .bool a, .int b => (if a then (1 : Int) else 0) == b
  | .bool a, .bool b => a == b
  | .str a, .str b => a == b
  | _, _ => false

/-- Python `str()` / f-string interpolation on the modelled values. -/
def pyStr : PyVal → String
  | .int n => toString n
  | .str s => s
  | .bool b => if b then "True" else "False"

/-- Domain-specific errors raised by the accessors:
`NotFoundItemError` and `WrongParamsError` from propycore.exceptions. -/
inductive DomainError : Type
  | notFoundItem (msg : String)
  | wrongParams (msg : String)
deriving DecidableEq

/-- The Request Layer's generic transport exception (`ProcoreException`),
carrying the message of the failed HTTP call. -/
structure ProcoreException : Type where
  msg : String
deriving DecidableEq

/-- The `for`-loop scan shared by the `find`-style methods: return the first
element satisfying the predicate, or raise the given domain error when the
loop falls through. -/
def firstMatch {α : Type} (p : α → Bool) (l : List α) (err : DomainError) :
    Except DomainError α :=
  match l.find? p with
  | some c => .ok c
  | none => .error err

/-! ## GenericTool accessor (src/propycore/access/generic_tools.py) -/

namespace GenericTool

/-- Tool record: the two fields `find_tool` consults. -/
structure Tool : Type where
  id : PyVal
  title : PyVal
deriving DecidableEq

/-- `GenericTool.get_tools(company_id, per_page=100)`: one GET of
`/companies/{id}/generic_tools` with `page=1` and the given `per_page`.
The remote is modelled as a function from (page, per_page) to the list of
tool records it returns. -/
def get_tools (remote : Nat → Nat → List Tool) (per_page : Nat) : List Tool :=
  remote 1 per_page

/-- `GenericTool.find_tool(company_id, identifier)`: dispatch on
`isinstance(identifier, int)` to choose the `id` or `title` key, then scan
`get_tools` output for the first record whose key equals the identifier;
raise `NotFoundItemError` when none matches. -/
def find_tool (remote : Nat → Nat → List Tool) (identifier : PyVal) :
    Except DomainError Tool :=
  let key : Tool → PyVal := if pyIsInstInt identifier then Tool.id else Tool.title
  firstMatch (fun tool => pyEq (key tool) identifier) (get_tools remote 100)
    (.notFoundItem ("Could not find tool " ++ pyStr identifier))

/-- The `while n_items > 0` loop of `GenericTool.get_tool_items`: fetch the
current page, append its item list, and continue with the next page until a
page comes back empty.  `api` maps a page number to the item list the remote
returns for it (all other query parameters are fixed by the code);
`fuel` bounds the number of iterations, `none` modelling non-termination.
Returns the requested page numbers alongside the accumulated `items`. -/
def get_tool_itemsAux {α : Type} (api : Nat → List α) (page fuel : Nat) :
    Option (List Nat × List (List α)) :=
  match fuel with
  | 0 => none
  | Nat.succ fuel =>
    let item_info := api page
    if item_info.length = 0 then
      some ([page], [item_info])
    else
      match get_tool_itemsAux api (page + 1) fuel with
      | none => none
      | some r => some (page :: r.1, item_info :: r.2)

/-- `GenericTool.get_tool_items(company_id, project_id, tool_id)`: run the
pagination loop starting at page 1, then return `items` if `len(items) > 0`
and raise `NotFoundItemError` otherwise.  The result pairs the trace of
requested page numbers with the outcome. -/
def get_tool_items {α : Type} (api : Nat → List α) (project_id tool_id : Int)
    (fuel : Nat) :
    Option (List Nat × Except DomainError (List (List α))) :=
  match get_tool_itemsAux api 1 fuel with
  | none => none
  | some r =>
    some (r.1,
      if r.2.length > 0 then .ok r.2
      else .error (.notFoundItem ("No items are available in Project " ++
        toString project_id ++ " for tool " ++ toString tool_id)))

/-- `GenericTool.create_tool_item(...)`: POST the item; a `ProcoreException`
from the Request Layer is caught and re-raised as `WrongParamsError(e)`,
whose message is the transport error's own message.  `postResult` models the
outcome of `post_request`. -/
def create_tool_item {α : Type} (postResult : Except ProcoreException α) :
    Except DomainError α :=
  match postResult with
  | .ok item_info => .ok item_info
  | .error e => .error (.wrongParams e.msg)

end GenericTool

/-! ## Companies accessor (src/propycore/access/companies.py) -/

/-- Company record: the two fields `Companies.find` consults. -/
structure Company : Type where
  id : PyVal
  name : PyVal
deriving DecidableEq

/-- One listing request against `/companies`, as issued by `Companies.get`:
its `page`, `per_page` and `include_free_companies` query parameters. -/
structure CompaniesReq : Type where
  page : Nat
  per_page : Nat
  include_free_companies : Bool
deriving DecidableEq

namespace Companies

/-- `Companies.get(page=1, per_page=100)`: a single GET of `/companies` with
`include_free_companies=True`.  Returns the trace of issued requests (always
exactly one) together with the remote's response. -/
def get (remote : CompaniesReq → List Company) (page per_page : Nat) :
    List CompaniesReq × List Company :=
  let req : CompaniesReq := ⟨page, per_page, true⟩
  ([req], remote req)

/-- `Companies.find(identifier)`: dispatch on `isinstance(identifier, int)`
to choose the `id` or `name` key, call `self.get()` (page 1, per_page 100),
scan for the first record whose key equals the identifier, and raise
`NotFoundItemError` when none matches.  Returns the request trace of the
embedded `get` call together with the outcome. -/
def find (remote : CompaniesReq → List Company) (identifier : PyVal) :
    List CompaniesReq × Except DomainError Company :=
  let key : Company → PyVal :=
    if pyIsInstInt identifier then Company.id else Company.name
  let r := get remote 1 100
  (r.1,
    firstMatch (fun company => pyEq (key company) identifier) r.2
      (.notFoundItem ("Could not find company " ++ pyStr identifier)))

end Companies

/-! ## Documents / Folders / Files accessors (src/propycore/access/documents.py) -/

/-- Document record: the discriminator fields the filters consult, plus the
identity fields. -/
structure Doc : Type where
  id : Int
  name : String
  document_type : String
  is_deleted : Bool
  is_recycle_bin : Bool
deriving DecidableEq

namespace Documents

/-- `Documents.get(company_id, project_id)`: one GET of
`/projects/{id}/documents`, returning the raw document list unfiltered.
`doc_info` models the remote's response body. -/
def get (doc_info : List Doc) : List Doc :=
  doc_info

end Documents

namespace Folders

/-- The filtering loop of `Folders.get`: keep documents with
`is_deleted is False`, `is_recycle_bin is False` and
`document_type == "folder"`, preserving order. -/
def getFilter (doc_info : List Doc) : List Doc :=
  doc_info.filter (fun doc =>
    (doc.is_deleted == false && doc.is_recycle_bin == false) &&
      doc.document_type == "folder")

/-- `Folders.get(company_id, project_id)`: fetch the project document list,
filter it to live folders, and raise `NotFoundItemError` when the filtered
list is empty. -/
def get (project_id : Int) (doc_info : List Doc) :
    Except DomainError (List Doc) :=
  let folders := getFilter doc_info
  if folders.length > 0 then .ok folders
  else .error (.notFoundItem
    ("No folders are available in Project " ++ toString project_id))

/-- The body-building loop of `Folders.update`: zip the keys
`["parent_id", "name", "explicit_permissions"]` with the caller's optional
values and keep only the pairs whose value is not `None`.  This is the
`folder` object of the outgoing PATCH payload. -/
def update_body (parent_id folder_name priv : Option PyVal) :
    List (String × PyVal) :=
  (List.zip ["parent_id", "name", "explicit_permissions"]
      [parent_id, folder_name, priv]).filterMap
    (fun kv => kv.2.map (fun val => (kv.1, val)))

/-- `Folders.create(company_id, project_id, folder_name, parent_id=None)`:
POST the folder payload; a `ProcoreException` from the Request Layer is
caught and re-raised as `WrongParamsError("Folder {folder_name} already
exists")`, discarding the transport error.  `postResult` models the outcome
of `post_request`. -/
def create {α : Type} (folder_name : String)
    (postResult : Except ProcoreException α) : Except DomainError α :=
  match postResult with
  | .ok doc_info => .ok doc_info
  | .error _ =>
    .error (.wrongParams ("Folder " ++ folder_name ++ " already exists"))

end Folders

namespace Files

/-- The filtering loop of `Files.get`: keep documents with
`is_deleted is False`, `is_recycle_bin is False` and
`document_type == "file"`, preserving order. -/
def getFilter (doc_info : List Doc) : List Doc :=
  doc_info.filter (fun doc =>
    (doc.is_deleted == false && doc.is_recycle_bin == false) &&
      doc.document_type == "file")

/-- `Files.get(company_id, project_id)`: fetch the project document list,
filter it to live files, and raise `NotFoundItemError` when the filtered
list is empty. -/
def get (project_id : Int) (doc_info : List Doc) :
    Except DomainError (List Doc) :=
  let files := getFilter doc_info
  if files.length > 0 then .ok files
  else .error (.notFoundItem
    ("No files are available in Project " ++ toString project_id))

/-- The body-building loop of `Files.update`: zip the keys
`["file[parent_id]", "file[name]", "file[description]", "file[private]"]`
with the caller's optional values and keep only the pairs whose value is not
`None`.  This is the data dictionary of the outgoing PATCH request (the same
in both the multipart and the metadata-only branch). -/
def update_body (parent_id filename description priv : Option PyVal) :
    List (String × PyVal) :=
  (List.zip
      ["file[parent_id]", "file[name]", "file[description]", "file[private]"]
      [parent_id, filename, description, priv]).filterMap
    (fun kv => kv.2.map (fun val => (kv.1, val)))

/-- Python `filepath.rsplit('/', 1)[-1]`: the part of the path after the
last slash (the whole string when it has no slash). -/
def rsplitLastSlash (filepath : String) : String :=
  (filepath.splitOn "/").getLastD filepath

/-- `Files.create(company_id, project_id, filepath, ...)`: POST the
multipart upload; a `ProcoreException` from the Request Layer is caught and
re-raised as `WrongParamsError("File {filename} already exists")` where
`filename = filepath.rsplit('/', 1)[-1]`, discarding the transport error.
`postResult` models the outcome of `post_request`. -/
def create {α : Type} (filepath : String)
    (postResult : Except ProcoreException α) : Except DomainError α :=
  let filename := rsplitLastSlash filepath
  match postResult with
  | .ok doc_info => .ok doc_info
  | .error _ =>
    .error (.wrongParams ("File " ++ filename ++ " already exists"))

end Files

/-! ## Lemmas about the pagination loop -/

/-- Invariant of the `get_tool_items` loop, generalized over the starting
page: on successful termination the requested pages are consecutive from the
starting page, at least one page was requested, the accumulated items are
exactly the per-page responses, the last requested page came back empty and
every earlier requested page came back non-empty. -/
lemma get_tool_itemsAux_spec {α : Type} (api : Nat → List α) :
    ∀ (fuel page : Nat) (ps : List Nat) (its : List (List α)),
      GenericTool.get_tool_itemsAux api page fuel = some (ps, its) →
      ps = List.range' page ps.length ∧ 0 < ps.length ∧
        its = ps.map api ∧ api (page + (ps.length - 1)) = [] ∧
        ∀ q, page ≤ q → q < page + (ps.length - 1) → api q ≠ [] := by
  intro fuel
  induction fuel with
  | zero =>
    intro page ps its h
    simp [GenericTool.get_tool_itemsAux] at h
  | succ fuel ih =>
    intro page ps its h
    rw [GenericTool.get_tool_itemsAux] at h
    by_cases hlen : (api page).length = 0
    · rw [if_pos hlen] at h
      injection h with h
      injection h with h1 h2
      subst h1; subst h2
      refine ⟨by simp [List.range'], by simp, rfl, ?_,
        by intro q hq1 hq2; simp at hq2; omega⟩
      simpa using List.length_eq_zero.mp hlen
    · rw [if_neg hlen] at h
      cases haux : GenericTool.get_tool_itemsAux api (page + 1) fuel with
      | none => rw [haux] at h; cases h
      | some r =>
        rw [haux] at h
        injection h with h
        injection h with h1 h2
        subst h1; subst h2
        obtain ⟨hr1, hr2, hr3, hr4, hr5⟩ := ih (page + 1) r.1 r.2 haux
        have hlc : (page :: r.1).length = r.1.length + 1 := List.length_cons _ _
        have harith : (page + 1) + (r.1.length - 1) = page + r.1.length := by
          omega
        refine ⟨?_, by simp, ?_, ?_, ?_⟩
        · rw [hlc, List.range'_succ]
          exact congrArg (page :: ·) hr1
        · rw [List.map_cons]
          exact congrArg (api page :: ·) hr3
        · rw [hlc, Nat.add_sub_cancel]
          rw [harith] at hr4
          exact hr4
        · intro q hq1 hq2
          rw [hlc, Nat.add_sub_cancel] at hq2
          rcases Nat.eq_or_lt_of_le hq1 with hq | hq
          · intro hnil
            exact hlen (by rw [← hq] at hnil; rw [hnil]; rfl)
          · exact hr5 q hq (by omega)

/-! ## Claims about GenericTool.get_tool_items -/

/-- C1: the claim states that `get_tool_items` raises `NotFoundItemError`
exactly when the first page is empty.  In the code the terminating empty
page is appended to `items` before the loop exits, so `len(items) > 0` is
always true and the `NotFoundItemError` branch is unreachable: with an
empty first page the call returns `[[]]`, and no terminating call ever
returns the NotFound error. -/
theorem C1_get_tool_items_notFound_unreachable :
    (∀ (project_id tool_id : Int) (fuel : Nat),
      GenericTool.get_tool_items (fun _ => ([] : List Nat)) project_id
        tool_id (fuel + 1) = some ([1], Except.ok [[]])) ∧
    (∀ (api : Nat → List Nat) (project_id tool_id : Int) (fuel : Nat)
        (ps : List Nat) (r : Except DomainError (List (List Nat))),
      GenericTool.get_tool_items api project_id tool_id fuel =
          some (ps, r) →
      ∃ l, r = Except.ok l) := by
  constructor
  · intro project_id tool_id fuel
    simp [GenericTool.get_tool_items, GenericTool.get_tool_itemsAux]
  · intro api project_id tool_id fuel ps r h
    rw [GenericTool.get_tool_items] at h
    cases haux : GenericTool.get_tool_itemsAux api 1 fuel with
    | none => rw [haux] at h; cases h
    | some p =>
      rw [haux] at h
      dsimp only at h
      obtain ⟨-, hpos, hits, -, -⟩ :=
        get_tool_itemsAux_spec api fuel 1 p.1 p.2 haux
      have hlen : p.2.length > 0 := by
        rw [hits, List.length_map]; exact hpos
      rw [if_pos hlen] at h
      injection h with h
      injection h with h1 h2
      exact ⟨p.2, h2.symm⟩

/-- Witness for C1: with a remote whose first page is empty, the call
terminates with `ok [[]]` rather than the NotFound error. -/
theorem C1_get_tool_items_notFound_unreachable_witness :
    ∃ l, (Except.ok [[]] : Except DomainError (List (List Nat))) =
      Except.ok l :=
  C1_get_tool_items_notFound_unreachable.2 (fun _ => []) 0 0 1 [1]
    (Except.ok [[]]) (C1_get_tool_items_notFound_unreachable.1 0 0 0)

/-- C6: on a terminating call, `get_tool_items` requests pages 1, 2, ...,
`ps.length` in order (hence never requests a duplicate page number), the
last requested page is the first one returning zero items (every earlier
page is non-empty), and the accumulated result is the list of per-page item
lists, one entry per requested page, not a flattened list. -/
theorem C6_pagination_requests {α : Type} (api : Nat → List α)
    (project_id tool_id : Int) (fuel : Nat) (ps : List Nat)
    (r : Except DomainError (List (List α)))
    (h : GenericTool.get_tool_items api project_id tool_id fuel =
      some (ps, r)) :
    ps = List.range' 1 ps.length ∧ ps.Nodup ∧
      r = Except.ok (ps.map api) ∧ api ps.length = [] ∧
      ∀ q, 1 ≤ q → q < ps.length → api q ≠ [] := by
  rw [GenericTool.get_tool_items] at h
  cases haux : GenericTool.get_tool_itemsAux api 1 fuel with
  | none => rw [haux] at h; cases h
  | some p =>
    rw [haux] at h
    dsimp only at h
    obtain ⟨hp1, hpos, hits, hlast, hbefore⟩ :=
      get_tool_itemsAux_spec api fuel 1 p.1 p.2 haux
    have hlen : p.2.length > 0 := by
      rw [hits, List.length_map]; exact hpos
    rw [if_pos hlen] at h
    injection h with h
    injection h with h1 h2
    subst h1; subst h2
    have harith : 1 + (p.1.length - 1) = p.1.length := by omega
    rw [harith] at hlast hbefore
    exact ⟨hp1, by rw [hp1]; exact List.nodup_range' _ _,
      congrArg Except.ok hits, hlast, hbefore⟩

/-- Witness for C6 at a remote with one non-empty page. -/
theorem C6_pagination_requests_witness : ([1, 2] : List Nat).Nodup :=
  (C6_pagination_requests (fun p => if p = 1 then [5] else []) 0 0 3 [1, 2]
    (Except.ok [[5], []]) rfl).2.1

/-- C9: on a successful call the returned list ends with the terminating
empty page: its last element is `[]`, every element before the last is
non-empty, its length equals the number of page requests issued, which is
the number of non-empty pages plus one. -/
theorem C9_terminating_page_included {α : Type} (api : Nat → List α)
    (project_id tool_id : Int) (fuel : Nat) (ps : List Nat)
    (l : List (List α))
    (h : GenericTool.get_tool_items api project_id tool_id fuel =
      some (ps, Except.ok l)) :
    l ≠ [] ∧ l.getLast? = some [] ∧ (∀ x ∈ l.dropLast, x ≠ []) ∧
      l.length = ps.length ∧
      l.length = l.countP (fun x => !x.isEmpty) + 1 := by
  rw [GenericTool.get_tool_items] at h
  cases haux : GenericTool.get_tool_itemsAux api 1 fuel with
  | none => rw [haux] at h; cases h
  | some p =>
    rw [haux] at h
    dsimp only at h
    obtain ⟨hp1, hpos, hits, hlast, hbefore⟩ :=
      get_tool_itemsAux_spec api fuel 1 p.1 p.2 haux
    have hlen : p.2.length > 0 := by
      rw [hits, List.length_map]; exact hpos
    rw [if_pos hlen] at h
    injection h with h
    injection h with h1 h2
    injection h2 with h2
    subst h1; subst h2
    have harith : 1 + (p.1.length - 1) = p.1.length := by omega
    rw [harith] at hlast hbefore
    obtain ⟨m, hm⟩ : ∃ m, p.1.length = m + 1 := ⟨p.1.length - 1, by omega⟩
    have hsplit : p.2 = (List.range' 1 m).map api ++ [api (1 + m)] := by
      rw [hits, hp1, hm, List.range'_1_concat, List.map_append]
      simp
    have hlastnil : api (1 + m) = [] := by
      rw [Nat.add_comm 1 m, ← hm]; exact hlast
    have hxs : ∀ x ∈ (List.range' 1 m).map api, x ≠ [] := by
      intro x hx
      obtain ⟨q, hq, rfl⟩ := List.mem_map.mp hx
      rw [List.mem_range'_1] at hq
      exact hbefore q hq.1 (by omega)
    rw [hsplit, hlastnil]
    refine ⟨List.append_ne_nil_of_right_ne_nil _ (by simp), ?_, ?_, ?_, ?_⟩
    · exact List.getLast?_concat _
    · rw [List.dropLast_concat]
      exact hxs
    · simp [hm]
    · rw [List.countP_append]
      have hxslen : ((List.range' 1 m).map api).countP
          (fun x => !x.isEmpty) = ((List.range' 1 m).map api).length := by
        rw [List.countP_eq_length]
        intro a ha
        have := hxs a ha
        simp [List.isEmpty_eq_true, this]
      rw [hxslen]
      simp

/-- Witness for C9 at a remote with one non-empty page. -/
theorem C9_terminating_page_included_witness :
    ([[5], []] : List (List Nat)).getLast? = some [] :=
  (C9_terminating_page_included (fun p => if p = 2 then [] else [5]) 0 0 3
    [1, 2] [[5], []] rfl).2.1

/-! ## Lemmas about the find-style linear scan -/

/-- The scan returns `ok a` exactly when `a` is the first list element
satisfying the predicate. -/
lemma firstMatch_eq_ok_iff {α : Type} {p : α → Bool} {l : List α}
    {err : DomainError} {a : α} :
    firstMatch p l err = Except.ok a ↔
      p a = true ∧ ∃ l₁ l₂, l = l₁ ++ a :: l₂ ∧ ∀ b ∈ l₁, p b = false := by
  have h1 : firstMatch p l err = Except.ok a ↔ l.find? p = some a := by
    unfold firstMatch
    cases l.find? p with
    | none => simp
    | some c => simp
  rw [h1, List.find?_eq_some]
  simp [Bool.not_eq_true']

/-- The scan raises the given error exactly when no list element satisfies
the predicate. -/
lemma firstMatch_eq_err_iff {α : Type} {p : α → Bool} {l : List α}
    {err : DomainError} :
    firstMatch p l err = Except.error err ↔ ∀ a ∈ l, p a = false := by
  have h1 : firstMatch p l err = Except.error err ↔ l.find? p = none := by
    unfold firstMatch
    cases l.find? p with
    | none => simp
    | some c => simp
  rw [h1, List.find?_eq_none]
  simp

/-! ## Claims about the find methods -/

/-- C3: for `Companies.find` and `GenericTool.find_tool`, an integer
identifier is matched strictly against the `id` field and a string (i.e.
non-integer) identifier against the `name` / `title` field, never both; the
first matching record in list order is returned, and `NotFoundItemError` is
raised exactly when no record matches the dispatched field. -/
theorem C3_find_identifier_dispatch
    (remote : CompaniesReq → List Company)
    (tremote : Nat → Nat → List GenericTool.Tool) (n : Int) (s : String) :
    (∀ c, (Companies.find remote (PyVal.int n)).2 = Except.ok c ↔
      pyEq c.id (PyVal.int n) = true ∧
        ∃ l₁ l₂, (Companies.get remote 1 100).2 = l₁ ++ c :: l₂ ∧
          ∀ b ∈ l₁, pyEq b.id (PyVal.int n) = false) ∧
    ((Companies.find remote (PyVal.int n)).2 =
        Except.error (DomainError.notFoundItem
          ("Could not find company " ++ pyStr (PyVal.int n))) ↔
      ∀ c ∈ (Companies.get remote 1 100).2,
        pyEq c.id (PyVal.int n) = false) ∧
    (∀ c, (Companies.find remote (PyVal.str s)).2 = Except.ok c ↔
      pyEq c.name (PyVal.str s) = true ∧
        ∃ l₁ l₂, (Companies.get remote 1 100).2 = l₁ ++ c :: l₂ ∧
          ∀ b ∈ l₁, pyEq b.name (PyVal.str s) = false) ∧
    ((Companies.find remote (PyVal.str s)).2 =
        Except.error (DomainError.notFoundItem
          ("Could not find company " ++ pyStr (PyVal.str s))) ↔
      ∀ c ∈ (Companies.get remote 1 100).2,
        pyEq c.name (PyVal.str s) = false) ∧
    (∀ t, GenericTool.find_tool tremote (PyVal.int n) = Except.ok t ↔
      pyEq t.id (PyVal.int n) = true ∧
        ∃ l₁ l₂, GenericTool.get_tools tremote 100 = l₁ ++ t :: l₂ ∧
          ∀ b ∈ l₁, pyEq b.id (PyVal.int n) = false) ∧
    (GenericTool.find_tool tremote (PyVal.int n) =
        Except.error (DomainError.notFoundItem
          ("Could not find tool " ++ pyStr (PyVal.int n))) ↔
      ∀ t ∈ GenericTool.get_tools tremote 100,
        pyEq t.id (PyVal.int n) = false) ∧
    (∀ t, GenericTool.find_tool tremote (PyVal.str s) = Except.ok t ↔
      pyEq t.title (PyVal.str s) = true ∧
        ∃ l₁ l₂, GenericTool.get_tools tremote 100 = l₁ ++ t :: l₂ ∧
          ∀ b ∈ l₁, pyEq b.title (PyVal.str s) = false) ∧
    (GenericTool.find_tool tremote (PyVal.str s) =
        Except.error (DomainError.notFoundItem
          ("Could not find tool " ++ pyStr (PyVal.str s))) ↔
      ∀ t ∈ GenericTool.get_tools tremote 100,
        pyEq t.title (PyVal.str s) = false) :=
  ⟨fun _ => firstMatch_eq_ok_iff, firstMatch_eq_err_iff,
    fun _ => firstMatch_eq_ok_iff, firstMatch_eq_err_iff,
    fun _ => firstMatch_eq_ok_iff, firstMatch_eq_err_iff,
    fun _ => firstMatch_eq_ok_iff, firstMatch_eq_err_iff⟩

/-- The one listing request `Companies.find` issues through `self.get()`:
page 1, per_page 100, include_free_companies=True. -/
def pageOneRequest : CompaniesReq :=
  { page := 1, per_page := 100, include_free_companies := true }

/-- C8: `Companies.find` issues exactly one listing request, with `page=1`,
`per_page=100` (and `include_free_companies=True`); every record it returns
is a member of that first page, so a company the remote only returns beyond
the first page is unreachable; and when no record of the first page matches,
it raises `NotFoundItemError` regardless of what later pages hold. -/
theorem C8_find_single_page (remote : CompaniesReq → List Company)
    (identifier : PyVal) :
    (Companies.find remote identifier).1 = [pageOneRequest] ∧
    (∀ c, (Companies.find remote identifier).2 = Except.ok c →
      c ∈ remote pageOneRequest) ∧
    ((∀ c ∈ remote pageOneRequest,
        pyEq (if pyIsInstInt identifier then c.id else c.name) identifier =
          false) →
      (Companies.find remote identifier).2 =
        Except.error (DomainError.notFoundItem
          ("Could not find company " ++ pyStr identifier))) := by
  refine ⟨rfl, ?_, ?_⟩
  · intro c h
    cases hinst : pyIsInstInt identifier
    · rw [Companies.find] at h
      rw [hinst] at h
      obtain ⟨-, l₁, l₂, hsplit, -⟩ := firstMatch_eq_ok_iff.mp h
      rw [show remote pageOneRequest =
        (Companies.get remote 1 100).2 from rfl, hsplit]
      simp
    · rw [Companies.find] at h
      rw [hinst] at h
      obtain ⟨-, l₁, l₂, hsplit, -⟩ := firstMatch_eq_ok_iff.mp h
      rw [show remote pageOneRequest =
        (Companies.get remote 1 100).2 from rfl, hsplit]
      simp
  · intro hall
    cases hinst : pyIsInstInt identifier
    · rw [Companies.find, hinst]
      exact firstMatch_eq_err_iff.mpr (fun a ha => by
        simpa [hinst] using hall a ha)
    · rw [Companies.find, hinst]
      exact firstMatch_eq_err_iff.mpr (fun a ha => by
        simpa [hinst] using hall a ha)

/-- Witness for C8: a remote whose first page has no match makes `find`
raise NotFound. -/
theorem C8_find_single_page_witness :
    (Companies.find (fun _ => []) (PyVal.int 3)).2 =
      Except.error (DomainError.notFoundItem
        ("Could not find company " ++ pyStr (PyVal.int 3))) :=
  (C8_find_single_page (fun _ => []) (PyVal.int 3)).2.2 (by simp)

/-- C10: a boolean identifier passes Python's `isinstance(identifier, int)`
test, so `Companies.find` and `GenericTool.find_tool` dispatch to id-field
matching for booleans, never name- or title-field matching; hence a record
returned for a boolean identifier has an id field Python-equal to that
boolean. -/
theorem C10_bool_identifier_uses_id_field
    (remote : CompaniesReq → List Company)
    (tremote : Nat → Nat → List GenericTool.Tool) (b : Bool) :
    ((Companies.find remote (PyVal.bool b)).2 =
      firstMatch (fun c => pyEq c.id (PyVal.bool b))
        ((Companies.get remote 1 100).2)
        (DomainError.notFoundItem
          ("Could not find company " ++ pyStr (PyVal.bool b)))) ∧
    (GenericTool.find_tool tremote (PyVal.bool b) =
      firstMatch (fun t => pyEq t.id (PyVal.bool b))
        (GenericTool.get_tools tremote 100)
        (DomainError.notFoundItem
          ("Could not find tool " ++ pyStr (PyVal.bool b)))) ∧
    (∀ c, (Companies.find remote (PyVal.bool b)).2 = Except.ok c →
      pyEq c.id (PyVal.bool b) = true) ∧
    (∀ t, GenericTool.find_tool tremote (PyVal.bool b) = Except.ok t →
      pyEq t.id (PyVal.bool b) = true) :=
  ⟨rfl, rfl,
    fun _ h => (firstMatch_eq_ok_iff.mp h).1,
    fun _ h => (firstMatch_eq_ok_iff.mp h).1⟩

/-- Witness for C10: `find(True)` returns the record whose integer id 1 is
Python-equal to `True`. -/
theorem C10_bool_identifier_uses_id_field_witness :
    pyEq (Company.id ⟨PyVal.int 1, PyVal.str "x"⟩) (PyVal.bool true) =
      true :=
  (C10_bool_identifier_uses_id_field
    (fun _ => [⟨PyVal.int 1, PyVal.str "x"⟩]) (fun _ _ => []) true).2.2.1
    ⟨PyVal.int 1, PyVal.str "x"⟩ rfl

/-! ## Lemmas about the Folders/Files filtered gets -/

/-- `Folders.get` succeeds exactly when the filtered list is non-empty, and
then returns that list. -/
lemma foldersGet_ok_iff {project_id : Int} {docs l : List Doc} :
    Folders.get project_id docs = Except.ok l ↔
      Folders.getFilter docs ≠ [] ∧ l = Folders.getFilter docs := by
  simp only [Folders.get]
  split
  next hpos =>
    constructor
    · intro h
      injection h with h
      exact ⟨List.ne_nil_of_length_pos hpos, h.symm⟩
    · rintro ⟨-, rfl⟩
      rfl
  next hpos =>
    constructor
    · intro h
      exact Except.noConfusion h
    · rintro ⟨hne, -⟩
      exact absurd (List.length_eq_zero.mp (by omega)) hne

/-- `Folders.get` raises exactly the NotFound error, exactly when the
filtered list is empty. -/
lemma foldersGet_err_iff {project_id : Int} {docs : List Doc}
    {e : DomainError} :
    Folders.get project_id docs = Except.error e ↔
      Folders.getFilter docs = [] ∧
        e = DomainError.notFoundItem
          ("No folders are available in Project " ++ toString project_id) := by
  simp only [Folders.get]
  split
  next hpos =>
    constructor
    · intro h
      exact Except.noConfusion h
    · rintro ⟨hnil, -⟩
      rw [hnil] at hpos
      simp at hpos
  next hpos =>
    constructor
    · intro h
      injection h with h
      exact ⟨List.length_eq_zero.mp (by omega), h.symm⟩
    · rintro ⟨-, rfl⟩
      rfl

/-- `Files.get` succeeds exactly when the filtered list is non-empty, and
then returns that list. -/
lemma filesGet_ok_iff {project_id : Int} {docs l : List Doc} :
    Files.get project_id docs = Except.ok l ↔
      Files.getFilter docs ≠ [] ∧ l = Files.getFilter docs := by
  simp only [Files.get]
  split
  next hpos =>
    constructor
    · intro h
      injection h with h
      exact ⟨List.ne_nil_of_length_pos hpos, h.symm⟩
    · rintro ⟨-, rfl⟩
      rfl
  next hpos =>
    constructor
    · intro h
      exact Except.noConfusion h
    · rintro ⟨hne, -⟩
      exact absurd (List.length_eq_zero.mp (by omega)) hne

/-- `Files.get` raises exactly the NotFound error, exactly when the filtered
list is empty. -/
lemma filesGet_err_iff {project_id : Int} {docs : List Doc}
    {e : DomainError} :
    Files.get project_id docs = Except.error e ↔
      Files.getFilter docs = [] ∧
        e = DomainError.notFoundItem
          ("No files are available in Project " ++ toString project_id) := by
  simp only [Files.get]
  split
  next hpos =>
    constructor
    · intro h
      exact Except.noConfusion h
    · rintro ⟨hnil, -⟩
      rw [hnil] at hpos
      simp at hpos
  next hpos =>
    constructor
    · intro h
      injection h with h
      exact ⟨List.length_eq_zero.mp (by omega), h.symm⟩
    · rintro ⟨-, rfl⟩
      rfl

/-! ## Claims about the document filters -/

/-- C2: for a document list whose records carry a folder/file discriminator,
no record appears in both the `Folders.get` and the `Files.get` filtered
output, and the two filtered outputs together are a permutation of the live
subset (is_deleted=false, is_recycle_bin=false) of the raw `Documents.get`
list; whenever the gets succeed they return exactly those filtered lists. -/
theorem C2_folders_files_partition (docs : List Doc)
    (hwf : ∀ d ∈ docs,
      d.document_type = "folder" ∨ d.document_type = "file") :
    (∀ d, d ∈ Folders.getFilter docs → d ∉ Files.getFilter docs) ∧
    (Folders.getFilter docs ++ Files.getFilter docs).Perm
      ((Documents.get docs).filter
        (fun d => d.is_deleted == false && d.is_recycle_bin == false)) ∧
    (∀ project_id l, Folders.get project_id docs = Except.ok l →
      l = Folders.getFilter docs) ∧
    (∀ project_id l, Files.get project_id docs = Except.ok l →
      l = Files.getFilter docs) := by
  refine ⟨?_, ?_, ?_, ?_⟩
  · intro d hdF hdG
    have h1 := (List.mem_filter.mp hdF).2
    have h2 := (List.mem_filter.mp hdG).2
    simp only [Bool.and_eq_true, beq_iff_eq] at h1 h2
    exact absurd (h1.2.symm.trans h2.2) (by decide)
  · have hfold : Folders.getFilter docs =
        ((Documents.get docs).filter
            (fun d => d.is_deleted == false && d.is_recycle_bin == false)).filter
          (fun d => d.document_type == "folder") := by
      rw [List.filter_filter]
      exact List.filter_congr (fun d _ => Bool.and_comm _ _)
    have hfile : Files.getFilter docs =
        ((Documents.get docs).filter
            (fun d => d.is_deleted == false && d.is_recycle_bin == false)).filter
          (fun d => !(d.document_type == "folder")) := by
      rw [List.filter_filter]
      refine List.filter_congr (fun d hd => ?_)
      rcases hwf d hd with h | h <;> rw [h] <;>
        cases hb : (d.is_deleted == false && d.is_recycle_bin == false) <;>
          decide
    rw [hfold, hfile]
    exact List.filter_append_perm _ _
  · intro project_id l h
    exact (foldersGet_ok_iff.mp h).2
  · intro project_id l h
    exact (filesGet_ok_iff.mp h).2

/-- Witness for C2 at a two-document list with one live folder and one live
file. -/
theorem C2_folders_files_partition_witness :
    (Folders.getFilter
        [⟨1, "a", "folder", false, false⟩, ⟨2, "b", "file", false, false⟩] ++
      Files.getFilter
        [⟨1, "a", "folder", false, false⟩,
          ⟨2, "b", "file", false, false⟩]).Perm
      ((Documents.get
          [⟨1, "a", "folder", false, false⟩,
            ⟨2, "b", "file", false, false⟩]).filter
        (fun d => d.is_deleted == false && d.is_recycle_bin == false)) :=
  (C2_folders_files_partition
    [⟨1, "a", "folder", false, false⟩, ⟨2, "b", "file", false, false⟩]
    (by decide)).2.1

/-- C7: a record with `is_deleted=true` or `is_recycle_bin=true` never
appears in the output of `Folders.get` or `Files.get`, even when its
`document_type` matches; and each method raises `NotFoundItemError` exactly
when its filtered set is empty. -/
theorem C7_dead_records_never_returned (docs : List Doc) (d : Doc)
    (hd : d.is_deleted = true ∨ d.is_recycle_bin = true) :
    (∀ project_id l, Folders.get project_id docs = Except.ok l → d ∉ l) ∧
    (∀ project_id l, Files.get project_id docs = Except.ok l → d ∉ l) ∧
    (∀ project_id : Int, Folders.get project_id docs =
        Except.error (DomainError.notFoundItem
          ("No folders are available in Project " ++ toString project_id)) ↔
      Folders.getFilter docs = []) ∧
    (∀ project_id : Int, Files.get project_id docs =
        Except.error (DomainError.notFoundItem
          ("No files are available in Project " ++ toString project_id)) ↔
      Files.getFilter docs = []) := by
  refine ⟨?_, ?_, ?_, ?_⟩
  · intro project_id l h hmem
    obtain ⟨-, rfl⟩ := foldersGet_ok_iff.mp h
    have hpred := (List.mem_filter.mp hmem).2
    simp only [Bool.and_eq_true, beq_iff_eq] at hpred
    rcases hd with hd | hd
    · rw [hd] at hpred
      exact absurd hpred.1.1 (by decide)
    · rw [hd] at hpred
      exact absurd hpred.1.2 (by decide)
  · intro project_id l h hmem
    obtain ⟨-, rfl⟩ := filesGet_ok_iff.mp h
    have hpred := (List.mem_filter.mp hmem).2
    simp only [Bool.and_eq_true, beq_iff_eq] at hpred
    rcases hd with hd | hd
    · rw [hd] at hpred
      exact absurd hpred.1.1 (by decide)
    · rw [hd] at hpred
      exact absurd hpred.1.2 (by decide)
  · intro project_id
    constructor
    · intro h
      exact (foldersGet_err_iff.mp h).1
    · intro hnil
      exact foldersGet_err_iff.mpr ⟨hnil, rfl⟩
  · intro project_id
    constructor
    · intro h
      exact (filesGet_err_iff.mp h).1
    · intro hnil
      exact filesGet_err_iff.mpr ⟨hnil, rfl⟩

/-- Witness for C7: a deleted folder record is excluded from `Folders.get`
output even though its document_type is "folder". -/
theorem C7_dead_records_never_returned_witness :
    (⟨1, "a", "folder", true, false⟩ : Doc) ∉
      [(⟨2, "b", "folder", false, false⟩ : Doc)] :=
  (C7_dead_records_never_returned
    [⟨1, "a", "folder", true, false⟩, ⟨2, "b", "folder", false, false⟩]
    ⟨1, "a", "folder", true, false⟩ (Or.inl rfl)).1 0
    [⟨2, "b", "folder", false, false⟩] rfl

/-! ## Claim about the sparse-patch update bodies -/

/-- C4: the update bodies built by `Folders.update` and `Files.update`
contain exactly the optional fields the caller supplied with non-None
values, under the keys parent_id/name/explicit_permissions for folders and
file[parent_id]/file[name]/file[description]/file[private] for files; a
field the caller did not supply is absent from the body, not sent as None. -/
theorem C4_sparse_update_bodies
    (p n e fp fn fd fpr : Option PyVal) (v : PyVal) :
    ((("parent_id", v) ∈ Folders.update_body p n e ↔ p = some v) ∧
      (("name", v) ∈ Folders.update_body p n e ↔ n = some v) ∧
      (("explicit_permissions", v) ∈ Folders.update_body p n e ↔
        e = some v) ∧
      (∀ k w, (k, w) ∈ Folders.update_body p n e →
        k = "parent_id" ∨ k = "name" ∨ k = "explicit_permissions")) ∧
    ((("file[parent_id]", v) ∈ Files.update_body fp fn fd fpr ↔
        fp = some v) ∧
      (("file[name]", v) ∈ Files.update_body fp fn fd fpr ↔ fn = some v) ∧
      (("file[description]", v) ∈ Files.update_body fp fn fd fpr ↔
        fd = some v) ∧
      (("file[private]", v) ∈ Files.update_body fp fn fd fpr ↔
        fpr = some v) ∧
      (∀ k w, (k, w) ∈ Files.update_body fp fn fd fpr →
        k = "file[parent_id]" ∨ k = "file[name]" ∨
          k = "file[description]" ∨ k = "file[private]")) := by
  constructor
  · rcases p with - | pv <;> rcases n with - | nv <;> rcases e with - | ev <;>
      simp [Folders.update_body, eq_comm] <;> tauto
  · rcases fp with - | av <;> rcases fn with - | bv <;>
      rcases fd with - | cv <;> rcases fpr with - | dv <;>
        simp [Files.update_body, eq_comm] <;> tauto

/-- Witness for C4: a body with only parent_id supplied contains exactly
that pair. -/
theorem C4_sparse_update_bodies_witness :
    ("parent_id", PyVal.int 5) ∈
      Folders.update_body (some (PyVal.int 5)) none none :=
  ((C4_sparse_update_bodies (some (PyVal.int 5)) none none none none none
    none (PyVal.int 5)).1.1).mpr rfl

/-! ## Claims about the create error translation -/

/-- C5 counterexample: when the Request Layer fails with message
"409 Conflict", `Folders.create` raises WrongParams with the fixed message
"Folder f already exists" rather than one carrying the original transport
message, refuting the claim that the raised domain error carries the
original message in all three create methods. -/
theorem C5_message_discarded_counterexample :
    Folders.create "f" (Except.error ⟨"409 Conflict"⟩ :
        Except ProcoreException Nat) =
      Except.error (DomainError.wrongParams "Folder f already exists") ∧
    "Folder f already exists" ≠ "409 Conflict" :=
  ⟨rfl, by decide⟩

/-- C5 amended: whenever the Request Layer raises its transport exception
during `Folders.create`, `Files.create` or `GenericTool.create_tool_item`,
the accessor catches it and raises `WrongParamsError` instead;
`create_tool_item`'s error carries the original transport message, while
`Folders.create` and `Files.create` discard it in favour of fixed
"already exists" messages; a successful post is passed through unchanged. -/
theorem C5_wrongParams_translation (α : Type) (e : ProcoreException)
    (folder_name filepath : String) :
    Folders.create folder_name
        (Except.error e : Except ProcoreException α) =
      Except.error (DomainError.wrongParams
        ("Folder " ++ folder_name ++ " already exists")) ∧
    Files.create filepath (Except.error e : Except ProcoreException α) =
      Except.error (DomainError.wrongParams
        ("File " ++ Files.rsplitLastSlash filepath ++ " already exists")) ∧
    GenericTool.create_tool_item
        (Except.error e : Except ProcoreException α) =
      Except.error (DomainError.wrongParams e.msg) ∧
    (∀ x : α, Folders.create folder_name (Except.ok x) = Except.ok x) ∧
    (∀ x : α, Files.create filepath (Except.ok x) = Except.ok x) ∧
    (∀ x : α, GenericTool.create_tool_item
      (Except.ok x : Except ProcoreException α) = Except.ok x) :=
  ⟨rfl, rfl, rfl, fun _ => rfl, fun _ => rfl, fun _ => rfl⟩

end ProPyCore
